import Mathlib

/-!
Verification development for the sati satellite-imagery gateway.

The definitions below are a shallow embedding of the raster-processing core:

* `app/workers/tasks.py` — multi-scene aggregation (`aggregate_scenes`,
  `calculate_spectral_index`), the mosaic task (`create_imagery_mosaic`),
  job-status bookkeeping (`update_job_status`, final statuses of
  `download_imagery`) and the band-math evaluator (`eval_band_math`);
* `app/api/v1/features/imagery/tiles/routes.py` — the tile endpoints
  (`get_scene_tile`, `get_tile`): band-alias resolution, per-band reads with
  placeholder substitution, rescaling, the no-data alpha channel, ETag and
  conditional-request handling.

Modelling conventions: numpy floating arrays are modelled per pixel over `ℚ`;
the float NaN used as the no-data marker is modelled as `Option ℚ` with
`none` for NaN (`np.nanmean` and friends ignore `none` entries, `np.nan_to_num`
maps `none` back to 0). A 256 x 256 tile is a function
`Fin 256 → Fin 256 → ℚ`. `astype(np.uint8)` applied after `np.clip(_, 0, 255)`
truncates a non-negative float, modelled as `Int.toNat ∘ Int.floor`. External
reads (rio-tiler `Reader.tile` / `Reader.preview`) enter as explicit
`ReadOutcome` values; the md5 hex digest of `hashlib` enters as an arbitrary
function parameter `md5hex` (every statement proved about it holds for the
real digest). PNG/PIL byte encoding is external IO and is modelled at the
level of the RGBA pixel array handed to the encoder.
-/

namespace Sati

/-! ## numpy primitives -/

/-- Model of `np.clip(v, lo, hi)`: values below `lo` become `lo`, above `hi`
become `hi`. -/
def npClip (v lo hi : ℚ) : ℚ := min (max v lo) hi

/-- Model of `.astype(np.uint8)` on a clipped non-negative float: C-style
truncation toward zero, which on the non-negative values produced by
`np.clip(_, 0, 255)` is the floor. -/
def asU8 (v : ℚ) : ℕ := (⌊v⌋).toNat

/-- Model of a float-to-uint8 numpy cast on a value that may be negative
(reached in the source only for a band whose maximum is 0): floor then wrap
modulo 256. -/
def u8cast (v : ℚ) : ℕ := ((⌊v⌋) % 256).toNat

/-- Split of a character list at every occurrence of a separator character,
the list model of the Python `str.split` the routes apply to the bands and
rescale query values. -/
def splitOnChar (sep : Char) : List Char → List (List Char)
  | [] => [[]]
  | c :: rest =>
    let r := splitOnChar sep rest
    if c = sep then [] :: r
    else
      match r with
      | [] => [[c]]
      | g :: gs => (c :: g) :: gs

/-- Python `s.split(sep)` for a one-character separator. -/
def pySplitChar (sep : Char) (s : String) : List String :=
  (splitOnChar sep s.data).map String.mk

/-- Containment of one character list in another. -/
def containsList (needle : List Char) : List Char → Bool
  | [] => needle.isEmpty
  | c :: rest => needle.isPrefixOf (c :: rest) || containsList needle rest

/-- Python substring test `needle in haystack`. -/
def strContains (haystack needle : String) : Bool :=
  containsList needle.data haystack.data

/-- Left-to-right non-overlapping replacement over a character list, with the
remaining input length as structural fuel; the list model of Python
`str.replace` as applied by `eval_band_math` (band names, hence non-empty
patterns). -/
def replaceListAux (pat rep : List Char) : ℕ → List Char → List Char
  | _, [] => []
  | 0, hay => hay
  | Nat.succ f, c :: rest =>
    if pat ≠ [] && pat.isPrefixOf (c :: rest) then
      rep ++ replaceListAux pat rep f (rest.drop (pat.length - 1))
    else c :: replaceListAux pat rep f rest

/-- Python `s.replace(pat, rep)` for a non-empty pattern. -/
def pyReplace (s pat rep : String) : String :=
  String.mk (replaceListAux pat.data rep.data s.data.length s.data)

/-- Python `s.strip(Char.quote)`: drop every leading and trailing double-quote
character, as the tile route applies to the `If-None-Match` header value. -/
def stripQuotes (s : String) : String :=
  String.mk (((s.data.dropWhile (· = '"')).reverse.dropWhile (· = '"')).reverse)

/-! ## aggregate_scenes (tasks.py): NaN-aware per-pixel reduction

`aggregate_scenes` stacks the per-scene band arrays, converts exact-zero
pixels to NaN (`band_data_float[band_data_float == 0] = np.nan`), reduces
along the scene axis with a NaN-aware numpy reduction selected by
`aggregation_method`, and finally maps NaN back to 0 with `np.nan_to_num`.
The per-pixel view of those elementwise array operations is modelled here;
NaN is `none`. The `"std"` arm of the dispatch computes a square root and
is irrational; no claim depends on it and it is outside this rational
embedding, so the method type below carries the remaining arms of the
if/elif chain (`other` is the final `else`, which defaults to mean). -/

/-- Conversion of the no-data value to NaN, from
`band_data_float[band_data_float == 0] = np.nan` in `aggregate_scenes`. -/
def zeroToNan (v : ℚ) : Option ℚ := if v = 0 then none else some v

/-- Conversion used by the aggregation inside `calculate_spectral_index`:
`np.where(stacked > 0, stacked, np.nan)` keeps only strictly positive
values. -/
def posToNan (v : ℚ) : Option ℚ := if 0 < v then some v else none

/-- Valid (non-NaN) entries of a pixel stack. -/
def validEntries (xs : List (Option ℚ)) : List ℚ := xs.filterMap id

/-- Model of `np.nanmean` along the scene axis at one pixel: the mean of the
valid entries, NaN (`none`) when every entry is NaN. -/
def nanmean (xs : List (Option ℚ)) : Option ℚ :=
  let v := validEntries xs
  if v.isEmpty then none else some (v.sum / v.length)

/-- Model of `np.nanmax` at one pixel. -/
def nanmaxQ (xs : List (Option ℚ)) : Option ℚ :=
  match validEntries xs with
  | [] => none
  | v :: vs => some (vs.foldl max v)

/-- Model of `np.nanmin` at one pixel. -/
def nanminQ (xs : List (Option ℚ)) : Option ℚ :=
  match validEntries xs with
  | [] => none
  | v :: vs => some (vs.foldl min v)

/-- Model of `np.nanmedian` at one pixel: the middle of the sorted valid
entries, the average of the two middle ones for an even count. -/
def nanmedian (xs : List (Option ℚ)) : Option ℚ :=
  let v := validEntries xs
  if v.isEmpty then none
  else
    let s := v.mergeSort (fun a b => decide (a ≤ b))
    let n := s.length
    if n % 2 = 1 then some (s.getD (n / 2) 0)
    else some ((s.getD (n / 2 - 1) 0 + s.getD (n / 2) 0) / 2)

/-- Model of `np.nan_to_num(_, nan=0)` on the reduced value. -/
def nanToNum (x : Option ℚ) : ℚ := x.getD 0

/-- Aggregation methods of `aggregate_scenes`, one constructor per arm of its
if/elif dispatch except the irrational `"std"` arm (see the section comment);
`other` is the final `else` (defaults to mean). -/
inductive AggMethod where
  | mean
  | median
  | max
  | min
  | count
  | other
deriving DecidableEq

/-- Per-pixel model of the reduction step of `aggregate_scenes`: zeros to NaN,
NaN-aware reduction along the scene axis (`count` counts valid entries and is
never NaN), NaN back to 0. `vs` lists the per-scene values at one pixel in
caller order. -/
def aggregatePixel (m : AggMethod) (vs : List ℚ) : ℚ :=
  let stack := vs.map zeroToNan
  nanToNum (match m with
    | .mean => nanmean stack
    | .median => nanmedian stack
    | .max => nanmaxQ stack
    | .min => nanminQ stack
    | .count => some ((validEntries stack).length : ℚ)
    | .other => nanmean stack)

/-- Per-pixel model of the aggregation inside `calculate_spectral_index`:
dispatch on the method string as in the source (mean / median / max / min,
anything else defaults to mean), over `np.where(stacked > 0, stacked, np.nan)`,
then `np.nan_to_num`. -/
def aggregatePixelIdx (method : String) (vs : List ℚ) : ℚ :=
  let stack := vs.map posToNan
  nanToNum (if method = "mean" then nanmean stack
    else if method = "median" then nanmedian stack
    else if method = "max" then nanmaxQ stack
    else if method = "min" then nanminQ stack
    else nanmean stack)

/-! ## create_imagery_mosaic (tasks.py): per-pixel combination

For each band, `create_imagery_mosaic` takes the first successfully read
scene preview as `band_data` and, for every later scene, fills only the
pixels where `band_data == 0` (`mask = band_data == 0;
band_data[mask] = img.data[0][mask]`). The `strategy` argument is received
and echoed into the result payload but never read by the combination loop.
`vs` lists the per-scene pixel values in caller order; `none` means no scene
contributed the band. -/
def mosaicCombinePixel (strategy : String) (vs : List ℚ) : Option ℚ :=
  match vs with
  | [] => none
  | v :: rest => some (rest.foldl (fun acc w => if acc = 0 then w else acc) v)

/-! ## final job statuses (tasks.py) -/

/-- Final status and message of `download_imagery`: completed when every URL
downloaded, partial when some did, failed when none did. -/
def downloadFinalStatus (total succeeded : ℕ) : String × String :=
  if succeeded = total then
    ("completed", "Successfully downloaded " ++ toString succeeded ++ " files")
  else if succeeded ≠ 0 then
    ("partial", "Downloaded " ++ toString succeeded ++ "/" ++ toString total ++ " files")
  else
    ("failed", "All downloads failed")

/-- Final status of `create_imagery_mosaic` as a function of whether any
scene was found (`scenes_data` non-empty; otherwise `ValueError` is raised
and the except branch records `failed`) and, per requested band, whether any
scene read yielded data for it. When at least one band has data the task
saves the mosaic and records `completed`; when no band has data the file is
never written and hashing it raises, so the except branch records
`failed`. -/
def mosaicFinalStatus (scenesFound : Bool) (bandHasData : List Bool) : String :=
  if scenesFound = false then "failed"
  else if bandHasData.any id then "completed"
  else "failed"

/-! ## update_job_status (tasks.py): the processing_job record -/

/-- Update payload passed as `data` to `update_job_status`; a field is `none`
when the corresponding key is absent from the dict. -/
structure UpdateData where
  progress : Option ℚ
  stage : Option String
  message : Option String
  error : Option String
  outputFile : Option String
  executionTime : Option ℚ
deriving DecidableEq

/-- Stored processing_job record (the JSON blob under `processing_job:<id>`);
a field is `none` when absent. -/
structure ProcJob where
  status : String
  updatedAt : String
  progress : Option ℚ
  stage : Option String
  message : Option String
  resultData : Option UpdateData
  outputFiles : Option (List String)
  executionTime : Option ℚ
  error : Option String
deriving DecidableEq

/-- Field-by-field update applied by `update_job_status` to an existing
processing_job record: status and timestamp are overwritten; progress takes
the supplied value, else 100 when the new status is completed, else the
previous value (0 when absent); stage and message take the supplied value,
else keep the previous one; a completed update additionally stores the
result payload, and a failed one the error. -/
def updateProcessingJob (now status : String) (data : UpdateData) (job : ProcJob) : ProcJob :=
  let j1 : ProcJob :=
    { job with
      status := status
      updatedAt := now
      progress := some (data.progress.getD (if status = "completed" then 100 else job.progress.getD 0))
      stage := match data.stage with | some s => some s | none => job.stage
      message := match data.message with | some m => some m | none => job.message }
  if status = "completed" then
    { j1 with
      resultData := some data
      outputFiles := match data.outputFile with | some f => some [f] | none => none
      executionTime := data.executionTime }
  else if status = "failed" then { j1 with error := data.error }
  else j1

/-- The key-value store holding processing_job records. -/
def Store : Type := String → Option ProcJob

/-- The processing_job half of `update_job_status`: read the record, and only
if it exists, write back the whole updated value (read-then-write-whole-value
semantics); a missing record leaves the store unchanged. -/
def updateJobStatusStore (now status jobId : String) (data : UpdateData) (store : Store) : Store :=
  match store ("processing_job:" ++ jobId) with
  | none => store
  | some job =>
    fun k =>
      if k = "processing_job:" ++ jobId then some (updateProcessingJob now status data job)
      else store k

/-! ## eval_band_math (tasks.py): structural facts

`eval_band_math` rewrites each band name occurring in the expression to a
subscript of the `bands` dict, then calls the Python builtin `eval` on the
rewritten string with `__builtins__` emptied and the names below in scope;
any exception is re-raised as `ValueError("Invalid expression: " + str(e))`.
The Python evaluator itself is external; the declarations here record the
structure that decides claim C8: which names the evaluation exposes and the
shape of the error message. -/

/-- Names placed in scope for the `eval` call (`allowed_names` in the
source): the band dict, the whole numpy module, and the numeric builtins. -/
def evalBandMathAllowedNames : List String := ["bands", "np", "abs", "min", "max"]

/-- Textual substitution applied to the expression before evaluation:
each band name is replaced by a `bands[...]` subscript. -/
def evalBandMathSubstituted (expr : String) (bandNames : List String) : String :=
  bandNames.foldl (fun e b => pyReplace e b ("bands[\x27" ++ b ++ "\x27]")) expr

/-- Message of the `ValueError` raised when evaluation fails: the prefix
followed by the text of the underlying Python exception (not by the
expression). -/
def evalBandMathErrMsg (e : String) : String := "Invalid expression: " ++ e

/-! ## tile routes (routes.py): data model

A web tile is 256 x 256; raw pixel values are rationals. A remote band read
(rio-tiler `Reader.tile`) either yields data, raises an exception whose text
matches the out-of-bounds patterns the routes test for (`"is outside"` /
`"out of bounds"`), or raises some other exception. -/

/-- Raw 256 x 256 band array. -/
def Tile : Type := Fin 256 → Fin 256 → ℚ

/-- All-zero band array (also the placeholder
`np.zeros((256, 256), dtype=np.uint8)` substituted for missing bands). -/
def zeroTile : Tile := fun _ _ => 0

/-- Outcome of one remote raster read. -/
inductive ReadOutcome (α : Type) where
  | ok (data : α)
  | outOfBounds
  | err (msg : String)

/-! ## explicit rescale (routes.py)

Both routes rescale `(v - min) / (max - min) * 255`, clip to `[0, 255]` and
cast to uint8 when `max > min`. They differ in the degenerate branch:
`get_scene_tile` fills with 128 (`np.full_like(img_data, 128)`), `get_tile`
fills with 0 (`np.zeros_like(data)`). -/

/-- Per-pixel explicit rescale of `get_scene_tile`. -/
def rescaleScenePixel (mn mx v : ℚ) : ℕ :=
  if mx > mn then asU8 (npClip ((v - mn) / (mx - mn) * 255) 0 255) else 128

/-- Per-pixel explicit rescale of `get_tile`. -/
def rescaleTilePixel (mn mx v : ℚ) : ℕ :=
  if mx > mn then asU8 (npClip ((v - mn) / (mx - mn) * 255) 0 255) else 0

/-! ## percentile auto-contrast (routes.py) -/

/-- Maximum of a list of values (`band_array.max()`), 0 for the empty list
(unreached: a tile always has 65536 entries). -/
def listMax : List ℚ → ℚ
  | [] => 0
  | v :: vs => vs.foldl max v

/-- The flattened entries of a band array. -/
def tileValues (t : Tile) : List ℚ :=
  (List.finRange 256).flatMap (fun i => (List.finRange 256).map (fun j => t i j))

/-- Model of `np.percentile(xs, q)` with the default linear interpolation:
value at fractional rank `q / 100 * (n - 1)` of the sorted entries. -/
def npPercentile (xs : List ℚ) (q : ℚ) : ℚ :=
  let s := xs.mergeSort (fun a b => decide (a ≤ b))
  match s with
  | [] => 0
  | _ :: _ =>
    let n := s.length
    let pos : ℚ := q * (n - 1) / 100
    let i : ℕ := (⌊pos⌋).toNat
    let lo := s.getD i 0
    let hi := s.getD (Nat.min (i + 1) (n - 1)) 0
    lo + (pos - (i : ℚ)) * (hi - lo)

/-- Per-band auto-contrast of `get_scene_tile` (non-sentinel collections,
no explicit rescale): an all-zero-max band is passed through the uint8 cast;
otherwise stretch between the 2nd percentile of the positive entries (0 when
there are none) and the 98th percentile of all entries, or uniform 128 when
that range is degenerate. -/
def autoScaleBand (t : Tile) : Fin 256 → Fin 256 → ℕ :=
  let vals := tileValues t
  if listMax vals = 0 then fun i j => u8cast (t i j)
  else
    let pos := vals.filter (fun v => decide (0 < v))
    let bandMin := if pos.isEmpty then 0 else npPercentile pos 2
    let bandMax := npPercentile vals 98
    if bandMax > bandMin then
      fun i j => asU8 (npClip ((t i j - bandMin) / (bandMax - bandMin) * 255) 0 255)
    else fun _ _ => 128

/-- Per-band auto-contrast of `get_tile` (no explicit rescale): stretch
between the 2nd and 98th percentiles of all entries, uniform 128 when the
range is degenerate. -/
def autoScaleTileBand (t : Tile) : Fin 256 → Fin 256 → ℕ :=
  let vals := tileValues t
  let bandMin := npPercentile vals 2
  let bandMax := npPercentile vals 98
  if bandMax > bandMin then
    fun i j => asU8 (npClip ((t i j - bandMin) / (bandMax - bandMin) * 255) 0 255)
  else fun _ _ => 128

/-! ## band-alias resolution (get_scene_tile) -/

/-- The static `band_asset_mapping` dict of `get_scene_tile`: logical band
name to the list of asset-key spellings tried for it, in order. -/
def bandAssetMapping : String → Option (List String)
  | "B1" => some ["B01", "coastal"]
  | "B2" => some ["B02", "blue"]
  | "B3" => some ["B03", "green"]
  | "B4" => some ["B04", "red"]
  | "B5" => some ["B05", "rededge1", "rededge"]
  | "B6" => some ["B06", "rededge2"]
  | "B7" => some ["B07", "rededge3"]
  | "B8" => some ["B08", "nir", "nir08"]
  | "B8A" => some ["B8A", "nir09"]
  | "B9" => some ["B09", "water-vapor"]
  | "B10" => some ["B10", "cirrus"]
  | "B11" => some ["B11", "swir1", "swir16"]
  | "B12" => some ["B12", "swir2", "swir22"]
  | "B01" => some ["B01", "coastal"]
  | "B02" => some ["B02", "blue"]
  | "B03" => some ["B03", "green"]
  | "B04" => some ["B04", "red"]
  | "B05" => some ["B05", "rededge1"]
  | "B06" => some ["B06", "rededge2"]
  | "B07" => some ["B07", "rededge3"]
  | "B08" => some ["B08", "nir", "nir08"]
  | "B09" => some ["B09", "water-vapor"]
  | _ => none

/-- Candidate asset keys tried by the alias loop
(`band_asset_mapping.get(band, [band, band.lower()])`). -/
def possibleNames (band : String) : List String :=
  (bandAssetMapping band).getD [band, band.toLower]

/-- Lookup of an asset key in the scene assets (`scene.assets`, a dict
modelled as an association list), returning the href. -/
def lookupAsset (assets : List (String × String)) (name : String) : Option String :=
  (assets.find? (fun p => p.1 == name)).map (fun p => p.2)

/-- First of the candidate names present among the asset keys. -/
def findFirstAsset (assets : List (String × String)) (names : List String) : Option String :=
  names.findSome? (lookupAsset assets)

/-- Full band resolution of `get_scene_tile`: the alias loop over
`possibleNames`, then the literal band name, then its lowercase; `none`
(band not found) makes the caller substitute a zero placeholder band. -/
def resolveAssetUrl (band : String) (assets : List (String × String)) : Option String :=
  match findFirstAsset assets (possibleNames band) with
  | some url => some url
  | none =>
    match lookupAsset assets band with
    | some u => some u
    | none => lookupAsset assets band.toLower

/-! ## the per-band read loop of get_scene_tile

State of the `for band in band_list` loop: the collected band arrays and the
`has_valid_data` flag. A band that does not resolve contributes a zero
placeholder; an out-of-bounds read contributes a zero placeholder; any other
read error returns a transparent tile immediately when no band data has been
collected yet (`none` here), else contributes a zero placeholder. Only a
successful read sets `has_valid_data`. -/

/-- State of the band loop. -/
structure LoopState where
  bandData : List Tile
  hasValid : Bool

/-- One iteration of the band loop. -/
def sceneBandStep (assets : List (String × String)) (reads : String → ReadOutcome Tile)
    (st : LoopState) (band : String) : Option LoopState :=
  match resolveAssetUrl band assets with
  | none => some ⟨st.bandData ++ [zeroTile], st.hasValid⟩
  | some url =>
    match reads url with
    | .ok t => some ⟨st.bandData ++ [t], true⟩
    | .outOfBounds => some ⟨st.bandData ++ [zeroTile], st.hasValid⟩
    | .err _ =>
      if st.bandData.isEmpty then none
      else some ⟨st.bandData ++ [zeroTile], st.hasValid⟩

/-- The band loop from a given state. -/
def sceneBandLoopAux (assets : List (String × String)) (reads : String → ReadOutcome Tile) :
    LoopState → List String → Option LoopState
  | st, [] => some st
  | st, b :: bl =>
    match sceneBandStep assets reads st b with
    | none => none
    | some st2 => sceneBandLoopAux assets reads st2 bl

/-- The band loop of `get_scene_tile` (`none` = early transparent return). -/
def sceneBandLoop (assets : List (String × String)) (reads : String → ReadOutcome Tile)
    (bands : List String) : Option LoopState :=
  sceneBandLoopAux assets reads ⟨[], false⟩ bands

/-! ## composition, ETag and responses (get_scene_tile) -/

/-- The rescale block of `get_scene_tile` over the three stacked raw bands:
explicit min/max when supplied, else divide by 3000 for sentinel collections,
else percentile auto-contrast per band. -/
def rescaleSceneBands (r : Option (ℚ × ℚ)) (collection : String) (t : Fin 3 → Tile) :
    Fin 3 → Fin 256 → Fin 256 → ℕ :=
  match r with
  | some (mn, mx) => fun b i j => rescaleScenePixel mn mx (t b i j)
  | none =>
    if strContains collection.toLower "sentinel" then
      fun b i j => asU8 (npClip (t b i j / 3000 * 255) 0 255)
    else fun b => autoScaleBand (t b)

/-- Alpha from the pre-rescale sum across bands
(`np.where(original_sum <= 10, 0, 255)`). -/
def sceneAlphaPixel (s : ℚ) : ℕ := if s ≤ 10 then 0 else 255

/-- The RGBA image composed by `get_scene_tile` after the band loop: rescaled
RGB channels plus the alpha channel computed from the raw (pre-rescale) band
sum. -/
def sceneComposeImage (collection : String) (r : Option (ℚ × ℚ)) (t : Fin 3 → Tile) :
    Fin 256 → Fin 256 → ℕ × ℕ × ℕ × ℕ :=
  fun i j =>
    (rescaleSceneBands r collection t 0 i j,
     rescaleSceneBands r collection t 1 i j,
     rescaleSceneBands r collection t 2 i j,
     sceneAlphaPixel (t 0 i j + t 1 i j + t 2 i j))

/-- Fully transparent RGBA tile (`Image.new("RGBA", (256, 256), (0, 0, 0, 0))`). -/
def transparentRgba : Fin 256 → Fin 256 → ℕ × ℕ × ℕ × ℕ := fun _ _ => (0, 0, 0, 0)

/-- Image payload handed to the PNG encoder: RGBA for 3-band composites and
the transparent tile, grayscale-plus-alpha for the single-band path of
`get_tile`. -/
inductive ImageOut where
  | rgba (px : Fin 256 → Fin 256 → ℕ × ℕ × ℕ × ℕ)
  | la (px : Fin 256 → Fin 256 → ℕ × ℕ)

/-- Route response: a 200 PNG (with its optional ETag header), a 304 with no
body, or an HTTPException with its status code. -/
inductive Resp where
  | png (img : ImageOut) (etag : Option String)
  | notModified (etag : String)
  | httpError (code : ℕ) (detail : String)

/-- HTTP status code of a response. -/
def Resp.statusCode : Resp → ℕ
  | .png _ _ => 200
  | .notModified _ => 304
  | .httpError c _ => c

/-- Body of a response (`none` for 304 and error responses). -/
def Resp.body : Resp → Option ImageOut
  | .png img _ => some img
  | .notModified _ => none
  | .httpError _ _ => none

/-- Decimal fragment of the Python `float` constructor, as applied to the
rescale query values: optional sign, integer digits, optional fractional
digits (surrounding whitespace stripped). -/
def parseFloatQ (s : String) : Option ℚ :=
  let t := ((s.data.dropWhile Char.isWhitespace).reverse.dropWhile Char.isWhitespace).reverse
  let neg : Bool := match t with
    | '-' :: _ => true
    | _ => false
  let body : List Char := match t with
    | '-' :: r => r
    | '+' :: r => r
    | r => r
  let applySign : ℚ → ℚ := fun v => if neg then -v else v
  let digitsVal : List Char → Option ℕ := fun cs =>
    cs.foldlM (fun acc c => if c.isDigit then some (acc * 10 + (c.toNat - 48)) else none) 0
  match (splitOnChar '.' body).map String.mk with
  | [ip] =>
    if ip.isEmpty then none
    else (digitsVal ip.data).map (fun n => applySign n)
  | [ip, fp] =>
    if ip.isEmpty && fp.isEmpty then none
    else
      match digitsVal ip.data, digitsVal fp.data with
      | some n, some f => some (applySign ((n : ℚ) + (f : ℚ) / (10 : ℚ) ^ fp.length))
      | _, _ => none
  | _ => none

/-- Parse of the rescale query value
(`min_val, max_val = map(float, rescale.split(","))`): exactly two
comma-separated floats. -/
def parseRescale (s : String) : Option (ℚ × ℚ) :=
  match pySplitChar ',' s with
  | [a, b] =>
    match parseFloatQ a, parseFloatQ b with
    | some x, some y => some (x, y)
    | _, _ => none
  | _ => none

/-- Rescale handling of both routes: an absent or falsy (empty) query means
no rescale; a truthy one must parse (outer `none` = the `ValueError` path,
surfaced as a 500). -/
def parseRescaleQ (rq : Option String) : Option (Option (ℚ × ℚ)) :=
  match rq with
  | none => some none
  | some s => if s = "" then some none else (parseRescale s).map some

/-- Band list of `get_scene_tile`: split the truthy query on commas, default
to B4,B3,B2. -/
def bandListOf (bandsQ : String) : List String :=
  if bandsQ ≠ "" then pySplitChar ',' bandsQ else ["B4", "B3", "B2"]

/-- The string hashed for the ETag:
scene id, tile coordinates, raw bands query and raw rescale query (or
`auto`), joined with dashes, exactly as the f-string in `get_scene_tile`. -/
def etagContent (sceneId : String) (z x y : ℤ) (bandsQ : String) (rescaleQ : Option String) :
    String :=
  sceneId ++ "-" ++ toString z ++ "-" ++ toString x ++ "-" ++ toString y ++ "-" ++ bandsQ ++
    "-" ++
    (match rescaleQ with
     | some s => if s = "" then "auto" else s
     | none => "auto")

/-- The scene tile route `get_scene_tile` from the point where the scene
lookup has succeeded (its assets are given): parse the band list, run the
per-band read loop, return the transparent tile when the loop short-circuits
or no band read valid data, otherwise compose the RGBA image, compute the
ETag (`md5hex` of `etagContent`) and honor `If-None-Match`. `md5hex` is the
md5 hex digest, passed as a parameter; `reads` gives the outcome of the tile
read at each asset URL. -/
def getSceneTileResponse (md5hex : String → String) (sceneId : String) (z x y : ℤ)
    (collection : String) (bandsQ : String) (rescaleQ : Option String)
    (assets : List (String × String)) (reads : String → ReadOutcome Tile)
    (ifNoneMatch : Option String) : Resp :=
  let bandList := bandListOf bandsQ
  if bandList.length ≠ 3 then
    .httpError 400 "Exactly 3 bands required for RGB composite"
  else
    match sceneBandLoop assets reads bandList with
    | none => .png (.rgba transparentRgba) none
    | some st =>
      if st.hasValid = false then .png (.rgba transparentRgba) none
      else
        match parseRescaleQ rescaleQ with
        | none => .httpError 500 "could not convert string to float"
        | some r =>
          let t : Fin 3 → Tile := fun b => st.bandData.getD b.val zeroTile
          let img := sceneComposeImage collection r t
          let etag := md5hex (etagContent sceneId z x y bandsQ rescaleQ)
          match ifNoneMatch with
          | some inm =>
            if inm ≠ "" ∧ stripQuotes inm = etag then .notModified etag
            else .png (.rgba img) (some etag)
          | none => .png (.rgba img) (some etag)

/-! ## the generic COG tile route (get_tile) -/

/-- Alpha threshold of `get_tile`, applied to the post-rescale uint8 data
(`np.where(data_sum <= 5, 0, 255)`). -/
def tileAlphaPixel (s : ℕ) : ℕ := if s ≤ 5 then 0 else 255

/-- The rescale block of `get_tile` over the selected bands: explicit
min/max when supplied (degenerate range gives zeros), else percentile
auto-contrast per band. -/
def getTileScaled (r : Option (ℚ × ℚ)) (data : List Tile) :
    List (Fin 256 → Fin 256 → ℕ) :=
  match r with
  | some (mn, mx) => data.map (fun t i j => rescaleTilePixel mn mx (t i j))
  | none => data.map autoScaleTileBand

/-- The no-data sum of `get_tile`, over the post-rescale data: the sum of the
first three channels when there are at least three, else the single first
channel. -/
def getTileDataSum (scaled : List (Fin 256 → Fin 256 → ℕ)) : Fin 256 → Fin 256 → ℕ :=
  if 3 ≤ scaled.length then fun i j => (scaled.take 3).foldl (fun a b => a + b i j) 0
  else fun i j => (scaled.getD 0 (fun _ _ => 0)) i j

/-- Composition stage of `get_tile` after a successful read and rescale
parse: rescale the bands, compute the alpha channel from the rescaled
(post-rescale) data, and encode LA for one band, RGBA for three, a 500
otherwise (the `ValueError` surfaced by the outer handler). -/
def getTileCompose (data : List Tile) (r : Option (ℚ × ℚ)) : Resp :=
  let scaled := getTileScaled r data
  let dsum := getTileDataSum scaled
  let alpha : Fin 256 → Fin 256 → ℕ := fun i j => tileAlphaPixel (dsum i j)
  if scaled.length = 1 then
    .png (.la (fun i j => ((scaled.getD 0 (fun _ _ => 0)) i j, alpha i j))) none
  else if scaled.length = 3 then
    .png (.rgba (fun i j =>
      ((scaled.getD 0 (fun _ _ => 0)) i j,
       (scaled.getD 1 (fun _ _ => 0)) i j,
       (scaled.getD 2 (fun _ _ => 0)) i j,
       alpha i j))) none
  else .httpError 500 ("Unsupported number of bands: " ++ toString data.length)

/-- The route `get_tile` from the point where the COG is open: an
out-of-bounds tile read returns the transparent RGBA tile, any other read
error surfaces as a 500; otherwise parse the rescale query and compose.
`read` carries the selected band arrays. -/
def getTileResponse (read : ReadOutcome (List Tile)) (rescaleQ : Option String) : Resp :=
  match read with
  | .outOfBounds => .png (.rgba transparentRgba) none
  | .err m => .httpError 500 m
  | .ok data =>
    match parseRescaleQ rescaleQ with
    | none => .httpError 500 "could not convert string to float"
    | some r => getTileCompose data r

/-- Alpha component at one pixel of an RGBA response body (`none` when the
response has no RGBA body). -/
def respAlphaAt (resp : Resp) (i j : Fin 256) : Option ℕ :=
  match resp with
  | .png (.rgba px) _ => some (px i j).2.2.2
  | _ => none

/-! ## helper lemmas -/

/-- The valid entries of a zero-to-NaN stack are exactly the non-zero
values. -/
lemma validEntries_map_zeroToNan (vs : List ℚ) :
    validEntries (vs.map zeroToNan) = vs.filter (fun v => decide (v ≠ 0)) := by
  induction vs with
  | nil => rfl
  | cons v vs ih =>
    by_cases h : v = 0 <;>
      simp [validEntries, zeroToNan, h, List.filterMap_cons] <;>
      simpa [validEntries] using ih

/-- Uint8 conversion of a value at most 255 stays at most 255. -/
lemma asU8_le_255 {v : ℚ} (h : v ≤ 255) : asU8 v ≤ 255 := by
  have h2 : (⌊v⌋ : ℤ) ≤ 255 := by
    have h3 := Int.floor_le_floor h
    simpa using h3
  exact Int.toNat_le.mpr h2

/-! ## claims -/

/-- Claim C1: in multi-scene aggregation with method mean, exact-zero pixels
are no-data and excluded from the reduction. At a pixel with per-scene values
0, 5, 7 the aggregate is 6 (mean of the two valid observations), not 4; an
all-zero pixel aggregates to 0 (NaN mapped back to 0 after reduction);
dropping the zero entries of a stack never changes the mean aggregate. The
same holds for the aggregation inside `calculate_spectral_index`. -/
theorem claim_C1_mean_aggregation_excludes_zeros :
    aggregatePixel .mean [0, 5, 7] = 6
    ∧ aggregatePixel .mean [0, 5, 7] ≠ 4
    ∧ aggregatePixel .mean [0, 0, 0] = 0
    ∧ (∀ vs : List ℚ,
        aggregatePixel .mean vs = aggregatePixel .mean (vs.filter (fun v => decide (v ≠ 0))))
    ∧ aggregatePixelIdx "mean" [0, 5, 7] = 6
    ∧ aggregatePixelIdx "mean" [0, 0, 0] = 0 := by
  refine ⟨?_, ?_, ?_, ?_, ?_, ?_⟩
  · simp only [aggregatePixel, nanmean, validEntries, nanToNum, zeroToNan, List.map_cons,
      List.map_nil, List.filterMap_cons, List.filterMap_nil]
    norm_num
  · simp only [aggregatePixel, nanmean, validEntries, nanToNum, zeroToNan, List.map_cons,
      List.map_nil, List.filterMap_cons, List.filterMap_nil]
    norm_num
  · simp only [aggregatePixel, nanmean, validEntries, nanToNum, zeroToNan, List.map_cons,
      List.map_nil, List.filterMap_cons, List.filterMap_nil]
    norm_num
  · intro vs
    simp only [aggregatePixel, nanmean, validEntries_map_zeroToNan, List.filter_filter,
      Bool.and_self]
  · simp only [aggregatePixelIdx, nanmean, validEntries, nanToNum, posToNan, List.map_cons,
      List.map_nil, List.filterMap_cons, List.filterMap_nil]
    norm_num
  · simp only [aggregatePixelIdx, nanmean, validEntries, nanToNum, posToNan, List.map_cons,
      List.map_nil, List.filterMap_cons, List.filterMap_nil]
    norm_num

/-- Claim C2 (the code ignores the mosaic strategy): the per-pixel
combination of `create_imagery_mosaic` applies the first-non-zero rule for
every strategy string. With scene values 10 then 42 the strategies first and
last both give 10 (the claim expects 42 for last); when the first scene holds
no-data (0) the later value 42 fills in; and the combination does not depend
on the strategy argument at all. -/
theorem claim_C2_mosaic_strategy_ignored :
    mosaicCombinePixel "first" [10, 42] = some 10
    ∧ mosaicCombinePixel "last" [10, 42] = some 10
    ∧ mosaicCombinePixel "last" [10, 42] ≠ some 42
    ∧ mosaicCombinePixel "mean" [10, 42] = some 10
    ∧ mosaicCombinePixel "max" [10, 42] = some 10
    ∧ mosaicCombinePixel "min" [10, 42] = some 10
    ∧ mosaicCombinePixel "last" [0, 42] = some 42
    ∧ (∀ s1 s2 : String, ∀ vs : List ℚ, mosaicCombinePixel s1 vs = mosaicCombinePixel s2 vs) := by
  refine ⟨?_, ?_, ?_, ?_, ?_, ?_, ?_, fun s1 s2 vs => rfl⟩ <;> norm_num [mosaicCombinePixel]

/-- Claim C3 counterexample: the explicit rescale of `get_tile` at a
degenerate range (max = min = 5) yields 0, not the uniform 128 the claim
states for every rescale with explicit bounds. -/
theorem claim_C3_counterexample :
    rescaleTilePixel 5 5 3 = 0 ∧ rescaleTilePixel 5 5 3 ≠ 128 := by
  norm_num [rescaleTilePixel]

/-- Claim C3 as amended: with explicit bounds and max at most min, the scene
tile route rescales to the uniform value 128 while the generic COG route
rescales to the uniform value 0 (in both the guard takes the branch without
the division); in every case the rescaled value lies in [0, 255] (the lower
bound holds by the output type). -/
theorem claim_C3_degenerate_rescale :
    (∀ mn mx v : ℚ, mx ≤ mn → rescaleScenePixel mn mx v = 128 ∧ rescaleTilePixel mn mx v = 0)
    ∧ (∀ mn mx v : ℚ, rescaleScenePixel mn mx v ≤ 255 ∧ rescaleTilePixel mn mx v ≤ 255) := by
  constructor
  · intro mn mx v h
    have hng : ¬mx > mn := not_lt.mpr h
    constructor <;> simp [rescaleScenePixel, rescaleTilePixel, hng]
  · intro mn mx v
    have hb : ∀ w : ℚ, asU8 (npClip w 0 255) ≤ 255 :=
      fun w => asU8_le_255 (min_le_right _ _)
    constructor <;>
      · simp only [rescaleScenePixel, rescaleTilePixel]
        split
        · exact hb _
        · norm_num

/-- Claim C3 witness: the amended statement applied at the degenerate range
min = max = 5 with value 3, and at the non-degenerate range 0..3000. -/
theorem claim_C3_degenerate_rescale_witness :
    rescaleScenePixel 5 5 3 = 128 ∧ rescaleTilePixel 5 5 3 = 0
    ∧ rescaleScenePixel 0 3000 1500 ≤ 255 :=
  ⟨(claim_C3_degenerate_rescale.1 5 5 3 le_rfl).1,
   (claim_C3_degenerate_rescale.1 5 5 3 le_rfl).2,
   (claim_C3_degenerate_rescale.2 0 3000 1500).1⟩

/-- Claim C8 (band-math evaluation is not the restricted grammar the claim
states): the names exposed to the Python `eval` call include the whole numpy
module `np` besides the band dict and abs/min/max; the message of the
`ValueError` raised on failure is the prefix `Invalid expression:` followed
by the text of the underlying exception, which for a syntax error does not
contain the offending expression (here `B4 +`); and the substitution step
rewrites band names into subscripts of the bands dict before evaluation. -/
theorem claim_C8_band_math_eval_structure :
    "np" ∈ evalBandMathAllowedNames
    ∧ "np" ∉ (["abs", "min", "max"] : List String)
    ∧ evalBandMathErrMsg "invalid syntax (<string>, line 1)"
        = "Invalid expression: invalid syntax (<string>, line 1)"
    ∧ strContains (evalBandMathErrMsg "invalid syntax (<string>, line 1)") "B4 +" = false
    ∧ evalBandMathSubstituted "B8 - B4" ["B4", "B8"]
        = "bands[\x27B8\x27] - bands[\x27B4\x27]" := by
  refine ⟨?_, ?_, rfl, ?_, ?_⟩ <;> decide

/-- Claim C9 counterexample: a mosaic job in which scenes were found, the
first band produced data and the second produced none finishes with status
completed, not the partial status the claim requires when only some of the
contributing bands succeeded. -/
theorem claim_C9_counterexample :
    mosaicFinalStatus true [true, false] = "completed"
    ∧ mosaicFinalStatus true [true, false] ≠ "partial" := by
  constructor <;> decide

/-- Claim C9 as amended: every job terminates in completed, partial or
failed, never pending or in_progress, and always with a message.
`download_imagery` implements the claimed rule exactly: completed iff all
downloads succeeded, partial iff some but not all, failed iff none (of a
non-empty list). `create_imagery_mosaic` however only ever finishes completed
(at least one band produced data, even if others failed) or failed (no scene
or no band data): it never reports partial. -/
theorem claim_C9_final_job_status :
    (∀ n k : ℕ, k ≤ n →
      (((downloadFinalStatus n k).1 = "completed") ↔ k = n)
      ∧ (((downloadFinalStatus n k).1 = "partial") ↔ (k ≠ n ∧ k ≠ 0))
      ∧ (((downloadFinalStatus n k).1 = "failed") ↔ (k = 0 ∧ n ≠ 0)))
    ∧ (∀ n k : ℕ,
      ((downloadFinalStatus n k).1 = "completed" ∨ (downloadFinalStatus n k).1 = "partial"
        ∨ (downloadFinalStatus n k).1 = "failed")
      ∧ (downloadFinalStatus n k).1 ≠ "pending"
      ∧ (downloadFinalStatus n k).1 ≠ "in_progress"
      ∧ ((downloadFinalStatus n k).2 = "Successfully downloaded " ++ toString k ++ " files"
        ∨ (downloadFinalStatus n k).2
            = "Downloaded " ++ toString k ++ "/" ++ toString n ++ " files"
        ∨ (downloadFinalStatus n k).2 = "All downloads failed"))
    ∧ (∀ (sf : Bool) (l : List Bool),
      (mosaicFinalStatus sf l = "completed" ∨ mosaicFinalStatus sf l = "failed")
      ∧ mosaicFinalStatus sf l ≠ "partial"
      ∧ mosaicFinalStatus sf l ≠ "pending"
      ∧ mosaicFinalStatus sf l ≠ "in_progress")
    ∧ (∀ l : List Bool, (mosaicFinalStatus true l = "completed") ↔ l.any id = true) := by
  have hcp : ("completed" : String) ≠ "partial" := by decide
  have hcf : ("completed" : String) ≠ "failed" := by decide
  have hpf : ("partial" : String) ≠ "failed" := by decide
  refine ⟨?_, ?_, ?_, ?_⟩
  · intro n k hk
    unfold downloadFinalStatus
    by_cases h1 : k = n
    · rw [if_pos h1]
      exact ⟨iff_of_true rfl h1,
        iff_of_false hcp (fun h => h.1 h1),
        iff_of_false hcf (fun h => h.2 (h1.symm.trans h.1))⟩
    · rw [if_neg h1]
      by_cases h2 : k ≠ 0
      · rw [if_pos h2]
        exact ⟨iff_of_false (Ne.symm hcp) h1,
          iff_of_true rfl ⟨h1, h2⟩,
          iff_of_false hpf (fun h => h2 h.1)⟩
      · rw [if_neg h2]
        have hk0 : k = 0 := not_ne_iff.mp h2
        exact ⟨iff_of_false (Ne.symm hcf) h1,
          iff_of_false (Ne.symm hpf) (fun h => h.2 hk0),
          iff_of_true rfl ⟨hk0, fun hn0 => h1 (hk0.trans hn0.symm)⟩⟩
  · intro n k
    unfold downloadFinalStatus
    split
    · exact ⟨Or.inl rfl, (by decide : ("completed" : String) ≠ "pending"),
        (by decide : ("completed" : String) ≠ "in_progress"), Or.inl rfl⟩
    · split
      · exact ⟨Or.inr (Or.inl rfl), (by decide : ("partial" : String) ≠ "pending"),
          (by decide : ("partial" : String) ≠ "in_progress"), Or.inr (Or.inl rfl)⟩
      · exact ⟨Or.inr (Or.inr rfl), (by decide : ("failed" : String) ≠ "pending"),
          (by decide : ("failed" : String) ≠ "in_progress"), Or.inr (Or.inr rfl)⟩
  · intro sf l
    unfold mosaicFinalStatus
    split
    · exact ⟨Or.inr rfl, by decide, by decide, by decide⟩
    · split
      · exact ⟨Or.inl rfl, by decide, by decide, by decide⟩
      · exact ⟨Or.inr rfl, by decide, by decide, by decide⟩
  · intro l
    unfold mosaicFinalStatus
    rw [if_neg (by decide : ¬(true = false))]
    by_cases h : l.any id = true
    · rw [if_pos h]
      simp [h]
    · rw [if_neg h]
      constructor
      · intro habs
        exact absurd habs (Ne.symm hcf)
      · intro habs
        exact absurd habs h

/-- Claim C9 witness: one download out of two marks the job partial. -/
theorem claim_C9_final_job_status_witness :
    (downloadFinalStatus 2 1).1 = "partial" :=
  ((claim_C9_final_job_status.1 2 1 (by norm_num)).2.1).mpr (by norm_num)

/-- Claim C10: updating the status of a job whose processing_job record
exists preserves the fields the update omits. The stored stage and message
keep their previous values when the update data carries neither, and an
omitted progress keeps its previous value unless the new status is
completed, in which case it becomes 100. -/
theorem claim_C10_update_preserves_omitted_fields (now status jobId : String)
    (data : UpdateData) (store : Store) (job : ProcJob) (p : ℚ)
    (hfound : store ("processing_job:" ++ jobId) = some job)
    (hstage : data.stage = none) (hmsg : data.message = none)
    (hprog : data.progress = none) (hprev : job.progress = some p) :
    ∃ job2,
      updateJobStatusStore now status jobId data store ("processing_job:" ++ jobId) = some job2
      ∧ job2.stage = job.stage
      ∧ job2.message = job.message
      ∧ job2.progress = some (if status = "completed" then 100 else p)
      ∧ job2.status = status := by
  refine ⟨updateProcessingJob now status data job, ?_, ?_, ?_, ?_, ?_⟩
  · simp [updateJobStatusStore, hfound]
  · unfold updateProcessingJob
    split_ifs <;> simp [hstage]
  · unfold updateProcessingJob
    split_ifs <;> simp [hmsg]
  · unfold updateProcessingJob
    split_ifs <;> simp [hprog, hprev]
  · unfold updateProcessingJob
    split_ifs <;> simp

/-- Claim C10 witness: a record with progress 50, stage and message present,
updated to in_progress with an empty update payload, keeps all three. -/
theorem claim_C10_update_preserves_omitted_fields_witness :
    ∃ job2,
      updateJobStatusStore "t1" "in_progress" "j1" ⟨none, none, none, none, none, none⟩
          (fun k => if k = "processing_job:" ++ "j1"
            then some ⟨"queued", "t0", some 50, some "stage0", some "msg0", none, none, none, none⟩
            else none)
          ("processing_job:" ++ "j1") = some job2
      ∧ job2.stage = some "stage0"
      ∧ job2.message = some "msg0"
      ∧ job2.progress = some 50 := by
  obtain ⟨j2, h1, h2, h3, h4, h5⟩ :=
    claim_C10_update_preserves_omitted_fields "t1" "in_progress" "j1"
      ⟨none, none, none, none, none, none⟩
      (fun k => if k = "processing_job:" ++ "j1"
        then some ⟨"queued", "t0", some 50, some "stage0", some "msg0", none, none, none, none⟩
        else none)
      ⟨"queued", "t0", some 50, some "stage0", some "msg0", none, none, none, none⟩ 50
      (by simp) rfl rfl rfl rfl
  refine ⟨j2, h1, h2, h3, ?_⟩
  rw [h4, if_neg (by decide : ¬("in_progress" : String) = "completed")]

/-! ## loop lemmas for the tile route claims -/

/-- When every read is out of bounds, the band loop never raises, appends one
zero placeholder per band and never sets the valid flag. -/
lemma sceneBandLoopAux_oob (assets : List (String × String))
    (reads : String → ReadOutcome Tile) (hoob : ∀ u, reads u = .outOfBounds) :
    ∀ (bl : List String) (st : LoopState),
      sceneBandLoopAux assets reads st bl
        = some ⟨st.bandData ++ List.replicate bl.length zeroTile, st.hasValid⟩ := by
  intro bl
  induction bl with
  | nil => intro st; simp [sceneBandLoopAux]
  | cons b bl ih =>
    intro st
    have hstep : ∀ st2 : LoopState, sceneBandStep assets reads st2 b
        = some ⟨st2.bandData ++ [zeroTile], st2.hasValid⟩ := by
      intro st2
      cases hres : resolveAssetUrl b assets with
      | none => simp only [sceneBandStep, hres]
      | some url => simp only [sceneBandStep, hres, hoob url]
    simp only [sceneBandLoopAux, hstep st, ih]
    simp [List.replicate_succ, List.append_assoc]

/-- When every read succeeds with the all-zero tile, the band loop never
raises and collects one zero tile per band (placeholder or read). -/
lemma sceneBandLoopAux_okzero (assets : List (String × String))
    (reads : String → ReadOutcome Tile) (hok : ∀ u, reads u = .ok zeroTile) :
    ∀ (bl : List String) (st : LoopState),
      ∃ hv : Bool, sceneBandLoopAux assets reads st bl
        = some ⟨st.bandData ++ List.replicate bl.length zeroTile, hv⟩ := by
  intro bl
  induction bl with
  | nil => intro st; exact ⟨st.hasValid, by simp [sceneBandLoopAux]⟩
  | cons b bl ih =>
    intro st
    cases hres : resolveAssetUrl b assets with
    | none =>
      obtain ⟨hv, hrec⟩ := ih ⟨st.bandData ++ [zeroTile], st.hasValid⟩
      refine ⟨hv, ?_⟩
      simp only [sceneBandLoopAux, sceneBandStep, hres, hrec]
      simp [List.replicate_succ, List.append_assoc]
    | some url =>
      obtain ⟨hv, hrec⟩ := ih ⟨st.bandData ++ [zeroTile], true⟩
      refine ⟨hv, ?_⟩
      simp only [sceneBandLoopAux, sceneBandStep, hres, hok url, hrec]
      simp [List.replicate_succ, List.append_assoc]

/-- Claim C4: a tile request whose tile lies entirely outside the source
raster (every band read reports out of bounds) returns the fully transparent
256 x 256 RGBA tile with status 200 — no exception escapes and no 5xx is
produced — in the scene route; the generic COG route behaves the same on an
out-of-bounds read. -/
theorem claim_C4_out_of_bounds_transparent (md5hex : String → String) (sceneId : String)
    (z x y : ℤ) (collection bandsQ : String) (rescaleQ : Option String)
    (assets : List (String × String)) (reads : String → ReadOutcome Tile)
    (ifNoneMatch : Option String)
    (hb : (bandListOf bandsQ).length = 3)
    (hoob : ∀ u, reads u = .outOfBounds) :
    getSceneTileResponse md5hex sceneId z x y collection bandsQ rescaleQ assets reads ifNoneMatch
        = .png (.rgba transparentRgba) none
    ∧ (getSceneTileResponse md5hex sceneId z x y collection bandsQ rescaleQ assets reads
        ifNoneMatch).statusCode = 200
    ∧ (∀ rq : Option String, getTileResponse .outOfBounds rq = .png (.rgba transparentRgba) none)
    ∧ (∀ i j : Fin 256, transparentRgba i j = (0, 0, 0, 0)) := by
  have hmain : getSceneTileResponse md5hex sceneId z x y collection bandsQ rescaleQ assets reads
      ifNoneMatch = .png (.rgba transparentRgba) none := by
    unfold getSceneTileResponse sceneBandLoop
    rw [if_neg (by rw [hb]; exact fun h => h rfl)]
    rw [sceneBandLoopAux_oob assets reads hoob]
    rfl
  exact ⟨hmain, by rw [hmain]; rfl, fun rq => rfl, fun i j => rfl⟩

/-- Claim C4 witness: the scene route applied with every read out of bounds
yields the transparent tile. -/
theorem claim_C4_out_of_bounds_transparent_witness :
    getSceneTileResponse id "S" 0 0 0 "c" "B4,B3,B2" none [] (fun _ => .outOfBounds) none
      = .png (.rgba transparentRgba) none :=
  (claim_C4_out_of_bounds_transparent id "S" 0 0 0 "c" "B4,B3,B2" none []
    (fun _ => .outOfBounds) none rfl (fun _ => rfl)).1

/-- Claim C5: for a request that reaches the composition stage (three bands,
the loop collected valid data, the rescale query parses), the 200 response
carries exactly the ETag `md5hex (etagContent ...)` — a hash of scene id,
tile coordinates, bands and rescale spec only, so identical inputs give an
identical ETag and an identical body (the response is a pure function of the
inputs) — and a request whose If-None-Match header equals that ETag receives
a 304 with no body instead. -/
theorem claim_C5_etag_and_conditional (md5hex : String → String) (sceneId : String)
    (z x y : ℤ) (collection bandsQ : String) (rescaleQ : Option String)
    (assets : List (String × String)) (reads : String → ReadOutcome Tile)
    (st : LoopState) (r : Option (ℚ × ℚ))
    (hb : (bandListOf bandsQ).length = 3)
    (hloop : sceneBandLoop assets reads (bandListOf bandsQ) = some st)
    (hvalid : st.hasValid = true)
    (hparse : parseRescaleQ rescaleQ = some r) :
    getSceneTileResponse md5hex sceneId z x y collection bandsQ rescaleQ assets reads none
      = .png (.rgba (sceneComposeImage collection r (fun b => st.bandData.getD b.val zeroTile)))
          (some (md5hex (etagContent sceneId z x y bandsQ rescaleQ)))
    ∧ (∀ inm : String, inm ≠ "" →
        stripQuotes inm = md5hex (etagContent sceneId z x y bandsQ rescaleQ) →
        getSceneTileResponse md5hex sceneId z x y collection bandsQ rescaleQ assets reads
            (some inm)
          = .notModified (md5hex (etagContent sceneId z x y bandsQ rescaleQ)))
    ∧ (Resp.notModified (md5hex (etagContent sceneId z x y bandsQ rescaleQ))).body = none := by
  have hniff : ¬((bandListOf bandsQ).length ≠ 3) := by rw [hb]; exact fun h => h rfl
  refine ⟨?_, ?_, rfl⟩
  · unfold getSceneTileResponse
    rw [if_neg hniff, hloop]
    simp only [hvalid, hparse]
    rfl
  · intro inm hne hsq
    unfold getSceneTileResponse
    rw [if_neg hniff, hloop]
    simp only [hvalid, hparse]
    rw [if_neg (show ¬(true = false) by decide), if_pos ⟨hne, hsq⟩]

/-- Claim C5 witness: a concrete request whose loop succeeds, whose rescale
parses, and whose If-None-Match equals the ETag (here with the identity in
place of the digest) receives the 304. -/
theorem claim_C5_etag_and_conditional_witness :
    getSceneTileResponse id "S1" 1 2 3 "sentinel-2-l2a" "B4,B3,B2" (some "0,3000")
        [("B04", "u4"), ("B03", "u3"), ("B02", "u2")] (fun _ => .ok zeroTile)
        (some "\"S1-1-2-3-B4,B3,B2-0,3000\"")
      = .notModified "S1-1-2-3-B4,B3,B2-0,3000" :=
  (claim_C5_etag_and_conditional id "S1" 1 2 3 "sentinel-2-l2a" "B4,B3,B2" (some "0,3000")
      [("B04", "u4"), ("B03", "u3"), ("B02", "u2")] (fun _ => .ok zeroTile)
      ⟨[zeroTile, zeroTile, zeroTile], true⟩ (some (0, 3000)) rfl rfl rfl rfl).2.1
    "\"S1-1-2-3-B4,B3,B2-0,3000\"" (by decide) rfl

/-- A replicated list reads its own element at every index. -/
lemma getD_replicate {α : Type} (a : α) : ∀ n k : ℕ, (List.replicate n a).getD k a = a := by
  intro n
  induction n with
  | zero => intro k; simp [List.getD]
  | succ n ih =>
    intro k
    cases k with
    | zero => simp [List.replicate_succ]
    | succ k =>
      rw [List.replicate_succ]
      exact ih k

/-- Claim C6 counterexample: in `get_tile` the alpha channel is computed from
the post-rescale data, so an all-zero (pure no-data) band array rendered with
rescale -1,1 comes out fully opaque (alpha 255), not transparent as the claim
requires of every composed tile. -/
theorem claim_C6_counterexample :
    respAlphaAt (getTileResponse (.ok [zeroTile, zeroTile, zeroTile]) (some "-1,1")) 0 0
      = some 255
    ∧ some 255 ≠ some 0 := by
  constructor
  · have hres : rescaleTilePixel (-1) 1 0 = 127 := by
      unfold rescaleTilePixel asU8 npClip
      rw [if_pos (by norm_num : (1 : ℚ) > -1)]
      have h1 : (0 - (-1)) / (1 - (-1)) * 255 = (255 : ℚ) / 2 := by norm_num
      have h2 : max ((255 : ℚ) / 2) 0 = (255 : ℚ) / 2 := max_eq_left (by norm_num)
      have h3 : min ((255 : ℚ) / 2) 255 = (255 : ℚ) / 2 := min_eq_left (by norm_num)
      have h4 : (⌊(255 : ℚ) / 2⌋ : ℤ) = 127 := by
        rw [Int.floor_eq_iff]
        constructor <;> norm_num
      rw [h1, h2, h3, h4]
      rfl
    have hparse : parseRescaleQ (some "-1,1") = some (some (-1, 1)) := rfl
    simp only [getTileResponse, hparse, getTileCompose, getTileScaled, getTileDataSum,
      List.map_cons, List.map_nil, zeroTile, hres, respAlphaAt]
    norm_num [tileAlphaPixel]
  · simp

/-- Claim C6 as amended: in the scene route the alpha channel is computed
from the pre-rescale raw band sum thresholded at 10 — independent of the
rescale mode — and a request whose reads all return the all-zero band array
yields an RGBA response transparent at every pixel; in the generic COG route
the alpha is instead computed from the post-rescale data thresholded at 5,
so for all-zero data it is opaque or transparent according to where the
rescale maps the raw value 0. -/
theorem claim_C6_alpha_channel :
    (∀ (collection : String) (r : Option (ℚ × ℚ)) (t : Fin 3 → Tile) (i j : Fin 256),
      (sceneComposeImage collection r t i j).2.2.2
        = if t 0 i j + t 1 i j + t 2 i j ≤ 10 then 0 else 255)
    ∧ (∀ (collection : String) (r : Option (ℚ × ℚ)) (i j : Fin 256),
      (sceneComposeImage collection r (fun _ => zeroTile) i j).2.2.2 = 0)
    ∧ (∀ (md5hex : String → String) (sceneId : String) (z x y : ℤ)
        (collection bandsQ : String) (rescaleQ : Option String)
        (assets : List (String × String)) (reads : String → ReadOutcome Tile)
        (r : Option (ℚ × ℚ)),
        (bandListOf bandsQ).length = 3 →
        parseRescaleQ rescaleQ = some r →
        (∀ u, reads u = .ok zeroTile) →
        ∃ (img : Fin 256 → Fin 256 → ℕ × ℕ × ℕ × ℕ) (e : Option String),
          getSceneTileResponse md5hex sceneId z x y collection bandsQ rescaleQ assets reads none
            = .png (.rgba img) e
          ∧ ∀ i j : Fin 256, (img i j).2.2.2 = 0)
    ∧ (∀ (mn mx : ℚ) (i j : Fin 256),
      respAlphaAt (getTileCompose [zeroTile, zeroTile, zeroTile] (some (mn, mx))) i j
        = some (tileAlphaPixel (rescaleTilePixel mn mx 0 + rescaleTilePixel mn mx 0
            + rescaleTilePixel mn mx 0))) := by
  refine ⟨fun collection r t i j => rfl, ?_, ?_, ?_⟩
  · intro collection r i j
    simp only [sceneComposeImage, sceneAlphaPixel, zeroTile]
    norm_num
  · intro md5hex sceneId z x y collection bandsQ rescaleQ assets reads r hb hparse hok
    have hniff : ¬((bandListOf bandsQ).length ≠ 3) := by rw [hb]; exact fun h => h rfl
    obtain ⟨hv, hrec⟩ := sceneBandLoopAux_okzero assets reads hok (bandListOf bandsQ) ⟨[], false⟩
    have hloop : sceneBandLoop assets reads (bandListOf bandsQ)
        = some ⟨List.replicate (bandListOf bandsQ).length zeroTile, hv⟩ := by
      unfold sceneBandLoop
      rw [hrec]
      rfl
    cases hv with
    | false =>
      refine ⟨transparentRgba, none, ?_, fun i j => rfl⟩
      unfold getSceneTileResponse
      rw [if_neg hniff, hloop]
      rfl
    | true =>
      refine ⟨sceneComposeImage collection r
        (fun b => (List.replicate (bandListOf bandsQ).length zeroTile).getD b.val zeroTile),
        some (md5hex (etagContent sceneId z x y bandsQ rescaleQ)), ?_, ?_⟩
      · unfold getSceneTileResponse
        rw [if_neg hniff, hloop]
        simp only [hparse]
        rfl
      · intro i j
        simp only [sceneComposeImage, sceneAlphaPixel, getD_replicate, zeroTile]
        norm_num
  · intro mn mx i j
    simp only [getTileCompose, getTileScaled, getTileDataSum, List.map_cons, List.map_nil,
      zeroTile, respAlphaAt]
    norm_num

/-- Claim C6 witness: the amended statement applied to a concrete all-zero
request in the scene route. -/
theorem claim_C6_alpha_channel_witness :
    ∃ (img : Fin 256 → Fin 256 → ℕ × ℕ × ℕ × ℕ) (e : Option String),
      getSceneTileResponse id "S1" 1 2 3 "sentinel-2-l2a" "B4,B3,B2" none
          [("B04", "u4"), ("B03", "u3"), ("B02", "u2")] (fun _ => .ok zeroTile) none
        = .png (.rgba img) e
      ∧ ∀ i j : Fin 256, (img i j).2.2.2 = 0 :=
  claim_C6_alpha_channel.2.2.1 id "S1" 1 2 3 "sentinel-2-l2a" "B4,B3,B2" none
    [("B04", "u4"), ("B03", "u3"), ("B02", "u2")] (fun _ => .ok zeroTile) none
    rfl rfl (fun _ => rfl)

/-- Unfolding of findSome? over an appended list. -/
lemma findSome?_append_match {α β : Type} (f : α → Option β) (l1 l2 : List α) :
    (l1 ++ l2).findSome? f
      = (match l1.findSome? f with
         | some b => some b
         | none => l2.findSome? f) := by
  induction l1 with
  | nil => simp [List.findSome?]
  | cons a l1 ih =>
    cases hfa : f a <;> simp [List.findSome?, hfa, ih]

/-- Claim C7 counterexample: requesting band B4 against a scene whose only
asset key is the literal `B4` resolves to that asset, although none of the
alias spellings the static table lists for B4 (`B04`, `red`) matches any
asset key — the claim would require not_found here. -/
theorem claim_C7_counterexample :
    bandAssetMapping "B4" = some ["B04", "red"]
    ∧ lookupAsset [("B4", "u")] "B04" = none
    ∧ lookupAsset [("B4", "u")] "red" = none
    ∧ resolveAssetUrl "B4" [("B4", "u")] = some "u" :=
  ⟨rfl, rfl, rfl, rfl⟩

/-- Claim C7 as amended: band resolution tries, in order, the alias
spellings of the static table and then the literal band name and its
lowercase, and the first candidate present among the scene assets wins; only
when none of these matches does resolution report not found, in which case
the band loop substitutes the zero placeholder band and continues without
raising. -/
theorem claim_C7_band_resolution :
    (∀ (band : String) (assets : List (String × String)),
      resolveAssetUrl band assets
        = findFirstAsset assets (possibleNames band ++ [band, band.toLower]))
    ∧ (∀ (assets : List (String × String)) (reads : String → ReadOutcome Tile)
        (st : LoopState) (band : String),
        resolveAssetUrl band assets = none →
        sceneBandStep assets reads st band = some ⟨st.bandData ++ [zeroTile], st.hasValid⟩) := by
  constructor
  · intro band assets
    unfold resolveAssetUrl findFirstAsset
    rw [findSome?_append_match]
    cases h1 : (possibleNames band).findSome? (lookupAsset assets) with
    | some u => rfl
    | none =>
      cases h2 : lookupAsset assets band <;>
        cases h3 : lookupAsset assets band.toLower <;>
          simp [List.findSome?, h2, h3]
  · intro assets reads st band hnone
    simp only [sceneBandStep, hnone]

/-- Claim C7 witness: an unknown band over an empty asset map does not
resolve and the loop appends the zero placeholder. -/
theorem claim_C7_band_resolution_witness :
    sceneBandStep [] (fun _ => .outOfBounds) ⟨[], false⟩ "B99"
      = some ⟨[zeroTile], false⟩ :=
  claim_C7_band_resolution.2 [] (fun _ => .outOfBounds) ⟨[], false⟩ "B99" rfl

end Sati
